import Mathlib

/-!
Shallow embedding of the ACV management portal storage layer
(`MySQLStorage` in the server source) and the client Excel export
(`client/src/lib/excel.ts`), for checking the specification's claims.

The MySQL database is modelled as an in-memory list of rows plus an
auto-increment counter.  SQL `DATE` values are triples (year, month, day);
`NULL`-able columns are `Option`s.  SQL `LIKE '%s%'` under the default
case-insensitive collation is modelled as case-insensitive substring
containment (for search terms without LIKE wildcard characters, which is
the intended use in this code).  `ORDER BY date DESC` is modelled as a
stable sort by date descending with `NULL` dates last, MySQL's behaviour.
-/

/-- A SQL `DATE` value. -/
structure YMDate where
  year : Nat
  month : Nat
  day : Nat
deriving DecidableEq, Repr

/-- Date comparison, lexicographic on (year, month, day), as MySQL compares
`DATE` values. -/
def dateLeB (a b : YMDate) : Bool :=
  decide (a.year < b.year) ||
    (decide (a.year = b.year) &&
      (decide (a.month < b.month) ||
        (decide (a.month = b.month) && decide (a.day ≤ b.day))))

/-- Comparison on nullable dates with `NULL` smallest (MySQL sorts `NULL`
first ascending, hence last in `ORDER BY ... DESC`). -/
def odateLeB : Option YMDate → Option YMDate → Bool
  | none, _ => true
  | some _, none => false
  | some a, some b => dateLeB a b

/-- Models `k.toString().padStart(3, '0')` from the ticket-number generator. -/
def padStart3 (k : Nat) : String :=
  let s := toString k
  String.mk (List.replicate (3 - s.length) '0') ++ s

/-- The generated ticket number string: `TKT-<year>-<zero-padded seq>`. -/
def tktString (y k : Nat) : String :=
  "TKT-" ++ toString y ++ "-" ++ padStart3 k

/-- Boolean prefix test on character lists. -/
def isPrefB : List Char → List Char → Bool
  | [], _ => true
  | _ :: _, [] => false
  | a :: as, b :: bs => a == b && isPrefB as bs

/-- Boolean infix (contiguous substring) test on character lists. -/
def isInfB (p : List Char) : List Char → Bool
  | [] => isPrefB p []
  | x :: xs => isPrefB p (x :: xs) || isInfB p xs

/-- Case-insensitive substring test: models MySQL `col LIKE '%pat%'` under
the default case-insensitive collation (for patterns without `%`/`_`). -/
def ciSubstr (pat s : String) : Bool :=
  isInfB (pat.toList.map Char.toLower) (s.toList.map Char.toLower)

/-- Models `col LIKE '%pat%'` on a nullable column: `NULL` never matches. -/
def likeCol (pat : String) (col : Option String) : Bool :=
  match col with
  | some v => ciSubstr pat v
  | none => false

/-- JS truthiness of the optional string filter values: a filter is active
iff it is supplied and a non-empty string. -/
def strActive : Option String → Bool
  | some s => s ≠ ""
  | none => false

/-- Splits a character list on a separator character. -/
def splitOnChar (c : Char) : List Char → List (List Char)
  | [] => [[]]
  | x :: xs =>
    let r := splitOnChar c xs
    if x == c then [] :: r
    else
      match r with
      | [] => [[x]]
      | y :: ys => (x :: y) :: ys

/-- Reads a nonempty all-digit character list as a number. -/
def digitsToNat : List Char → Option Nat
  | [] => none
  | l =>
    l.foldl
      (fun acc c =>
        acc.bind fun a =>
          if c.isDigit then some (a * 10 + (c.toNat - 48)) else none)
      (some 0)

/-- Parses a `YYYY-MM-DD` string, modelling MySQL's cast of a string
date-range bound to `DATE` (`none` on malformed input). -/
def parseYMD (s : String) : Option YMDate :=
  match (splitOnChar '-' s.toList).map digitsToNat with
  | [some y, some m, some d] => some ⟨y, m, d⟩
  | _ => none

/-- A row of the `tickets` table (`shared/schema.ts`). -/
structure Ticket where
  id : Nat
  ticketNo : Option String := none
  date : Option YMDate := none
  projectType : Option String := none
  receivedBy : Option String := none
  siteName : Option String := none
  contactPerson : Option String := none
  mobile : Option String := none
  address : Option String := none
  issue : Option String := none
  remarkDetails : Option String := none
  attendedBy : Option String := none
  attendedDate : Option YMDate := none
  ticketStatus : Option String := none
  closingDate : Option YMDate := none
  paidStatus : Option String := none
  amountReceived : Option String := none
  feedback : Option String := none
  feedbackDate : Option YMDate := none
  feedbackTakenBy : Option String := none
  finalRemark : Option String := none
deriving DecidableEq, Repr

/-- An `InsertTicket` (the insert schema: every column except `id`,
each nullable/optional). -/
structure InsertTicket where
  ticketNo : Option String := none
  date : Option YMDate := none
  projectType : Option String := none
  receivedBy : Option String := none
  siteName : Option String := none
  contactPerson : Option String := none
  mobile : Option String := none
  address : Option String := none
  issue : Option String := none
  remarkDetails : Option String := none
  attendedBy : Option String := none
  attendedDate : Option YMDate := none
  ticketStatus : Option String := none
  closingDate : Option YMDate := none
  paidStatus : Option String := none
  amountReceived : Option String := none
  feedback : Option String := none
  feedbackDate : Option YMDate := none
  feedbackTakenBy : Option String := none
  finalRemark : Option String := none
deriving DecidableEq, Repr

/-- A `Partial<InsertTicket>`: each field either absent (outer `none`) or
supplied with a nullable value. -/
structure TicketPatch where
  ticketNo : Option (Option String) := none
  date : Option (Option YMDate) := none
  projectType : Option (Option String) := none
  receivedBy : Option (Option String) := none
  siteName : Option (Option String) := none
  contactPerson : Option (Option String) := none
  mobile : Option (Option String) := none
  address : Option (Option String) := none
  issue : Option (Option String) := none
  remarkDetails : Option (Option String) := none
  attendedBy : Option (Option String) := none
  attendedDate : Option (Option YMDate) := none
  ticketStatus : Option (Option String) := none
  closingDate : Option (Option YMDate) := none
  paidStatus : Option (Option String) := none
  amountReceived : Option (Option String) := none
  feedback : Option (Option String) := none
  feedbackDate : Option (Option YMDate) := none
  feedbackTakenBy : Option (Option String) := none
  finalRemark : Option (Option String) := none
deriving DecidableEq, Repr

/-- Models `UPDATE tickets SET <supplied fields> ...` applied to one row. -/
def applyTicketPatch (t : Ticket) (p : TicketPatch) : Ticket :=
  { t with
    ticketNo := p.ticketNo.getD t.ticketNo
    date := p.date.getD t.date
    projectType := p.projectType.getD t.projectType
    receivedBy := p.receivedBy.getD t.receivedBy
    siteName := p.siteName.getD t.siteName
    contactPerson := p.contactPerson.getD t.contactPerson
    mobile := p.mobile.getD t.mobile
    address := p.address.getD t.address
    issue := p.issue.getD t.issue
    remarkDetails := p.remarkDetails.getD t.remarkDetails
    attendedBy := p.attendedBy.getD t.attendedBy
    attendedDate := p.attendedDate.getD t.attendedDate
    ticketStatus := p.ticketStatus.getD t.ticketStatus
    closingDate := p.closingDate.getD t.closingDate
    paidStatus := p.paidStatus.getD t.paidStatus
    amountReceived := p.amountReceived.getD t.amountReceived
    feedback := p.feedback.getD t.feedback
    feedbackDate := p.feedbackDate.getD t.feedbackDate
    feedbackTakenBy := p.feedbackTakenBy.getD t.feedbackTakenBy
    finalRemark := p.finalRemark.getD t.finalRemark }

/-- The empty partial update (no fields supplied). -/
def emptyTicketPatch : TicketPatch := {}

/-- The `tickets` table: rows plus the `AUTO_INCREMENT` counter. -/
structure TicketStore where
  rows : List Ticket
  nextId : Nat
deriving DecidableEq, Repr

/-- Models `SELECT COUNT(*) FROM tickets WHERE YEAR(date) = ?` (a `NULL` date
never matches). -/
def countTicketsInYear (rows : List Ticket) (y : Nat) : Nat :=
  rows.countP (fun t =>
    match t.date with
    | some d => decide (d.year = y)
    | none => false)

/-- Models `ticket.ticketStatus || 'Open'` — absent, null or empty defaults to
"Open". -/
def statusOrOpen : Option String → String
  | some s => if s = "" then "Open" else s
  | none => "Open"

/-- The row built by `createTicket`: the insert payload, with the generated
ticket number overriding any client-supplied one and the status default. -/
def mkTicket (id : Nat) (tno : String) (ins : InsertTicket) : Ticket :=
  { id := id
    ticketNo := some tno
    date := ins.date
    projectType := ins.projectType
    receivedBy := ins.receivedBy
    siteName := ins.siteName
    contactPerson := ins.contactPerson
    mobile := ins.mobile
    address := ins.address
    issue := ins.issue
    remarkDetails := ins.remarkDetails
    attendedBy := ins.attendedBy
    attendedDate := ins.attendedDate
    ticketStatus := some (statusOrOpen ins.ticketStatus)
    closingDate := ins.closingDate
    paidStatus := ins.paidStatus
    amountReceived := ins.amountReceived
    feedback := ins.feedback
    feedbackDate := ins.feedbackDate
    feedbackTakenBy := ins.feedbackTakenBy
    finalRemark := ins.finalRemark }

/-- Embeds `MySQLStorage.createTicket`: counts this year's tickets, builds the
`TKT-<year>-<padded count+1>` number, inserts, and returns the new row.
`now` is the server clock at the time of the call. -/
def createTicket (now : YMDate) (store : TicketStore) (ins : InsertTicket) :
    TicketStore × Ticket :=
  let year := now.year
  let count := countTicketsInYear store.rows year + 1
  let tno := tktString year count
  let t := mkTicket store.nextId tno ins
  (⟨store.rows ++ [t], store.nextId + 1⟩, t)

/-- Models `SELECT * FROM tickets WHERE id = ?`, first row or undefined. -/
def getTicketById (store : TicketStore) (id : Nat) : Option Ticket :=
  store.rows.find? (fun t => t.id == id)

/-- True when a `Partial<InsertTicket>` supplies no fields at all, i.e.
the set object handed to the ORM has no values. -/
def ticketPatchIsEmpty (p : TicketPatch) : Bool := p == emptyTicketPatch

/-- Embeds `MySQLStorage.updateTicket`.  When the partial supplies no
fields, the ORM (drizzle's `mapUpdateSet`) throws `No values to set` —
an empty `UPDATE ... SET` clause is not buildable — so the method's
catch block rethrows the generic `Failed to update ticket` error and the
database is untouched.  Otherwise it runs
`UPDATE ... SET <partial> WHERE id = ?` and re-reads the row by id. -/
def updateTicket (store : TicketStore) (id : Nat) (p : TicketPatch) :
    TicketStore × Except String (Option Ticket) :=
  if ticketPatchIsEmpty p then (store, .error "Failed to update ticket")
  else
    let rows := store.rows.map (fun t => if t.id == id then applyTicketPatch t p else t)
    let st : TicketStore := ⟨rows, store.nextId⟩
    (st, .ok (getTicketById st id))

/-- Embeds `MySQLStorage.deleteTicket`: `DELETE FROM tickets WHERE id = ?`,
returning `affectedRows > 0`. -/
def deleteTicket (store : TicketStore) (id : Nat) : TicketStore × Bool :=
  (⟨store.rows.filter (fun t => !(t.id == id)), store.nextId⟩,
   store.rows.any (fun t => t.id == id))

/-- Sequential (non-concurrent) `createTicket` calls, collecting the
created rows. -/
def createTickets (now : YMDate) :
    TicketStore → List InsertTicket → TicketStore × List Ticket
  | store, [] => (store, [])
  | store, ins :: rest =>
    let r1 := createTicket now store ins
    let r2 := createTickets now r1.1 rest
    (r2.1, r1.2 :: r2.2)

/-- The query-string filters of `GET /api/tickets`. -/
structure TicketFilters where
  search : Option String := none
  status : Option String := none
  projectType : Option String := none
deriving DecidableEq, Repr

/-- Models `ORDER BY tickets.date DESC`: earlier rows have later (or equal) dates,
`NULL` dates last. -/
def tDesc (a b : Ticket) : Prop := odateLeB b.date a.date = true

instance : DecidableRel tDesc :=
  fun a b => inferInstanceAs (Decidable (odateLeB b.date a.date = true))

/-- The free-text search condition: `ticket_no LIKE ? OR site_name LIKE ?
OR contact_person LIKE ?`. -/
def ticketSearchHit (s : String) (t : Ticket) : Bool :=
  likeCol s t.ticketNo || likeCol s t.siteName || likeCol s t.contactPerson

/-- The conjunction of the WHERE conditions `getTickets` builds: each
filter contributes a condition only when its value is truthy (non-empty). -/
def ticketMatches (f : TicketFilters) (t : Ticket) : Bool :=
  (match f.search with
   | some s => if s = "" then true else ticketSearchHit s t
   | none => true) &&
  (match f.status with
   | some s => if s = "" then true else t.ticketStatus == some s
   | none => true) &&
  (match f.projectType with
   | some s => if s = "" then true else t.projectType == some s
   | none => true)

/-- The guard `if (filters?.search || filters?.status ||
filters?.projectType)` that decides whether any WHERE clause is built. -/
def tfActive (f : TicketFilters) : Bool :=
  strActive f.search || strActive f.status || strActive f.projectType

/-- Embeds `MySQLStorage.getTickets`: optional conjunctive WHERE clause, then
`ORDER BY date DESC`. -/
def getTickets (store : TicketStore) (f : TicketFilters) : List Ticket :=
  let base :=
    if tfActive f then store.rows.filter (ticketMatches f) else store.rows
  List.insertionSort tDesc base

/-- A row of the `reports` table (`shared/schema.ts`). -/
structure Report where
  id : Nat
  name : Option String := none
  date : Option YMDate := none
  kmIn : Option Int := none
  kmOut : Option Int := none
  site1 : Option String := none
  serviceReport1 : Option String := none
  site2 : Option String := none
  serviceReport2 : Option String := none
  site3 : Option String := none
  site4 : Option String := none
  serviceReport3 : Option String := none
  transportMode : Option String := none
  totalKm : Option Int := none
  amount : Option String := none
  paidOn : Option YMDate := none
deriving DecidableEq, Repr

/-- An `InsertReport` (every column except `id`, each nullable/optional). -/
structure InsertReport where
  name : Option String := none
  date : Option YMDate := none
  kmIn : Option Int := none
  kmOut : Option Int := none
  site1 : Option String := none
  serviceReport1 : Option String := none
  site2 : Option String := none
  serviceReport2 : Option String := none
  site3 : Option String := none
  site4 : Option String := none
  serviceReport3 : Option String := none
  transportMode : Option String := none
  totalKm : Option Int := none
  amount : Option String := none
  paidOn : Option YMDate := none
deriving DecidableEq, Repr

/-- A `Partial<InsertReport>`. -/
structure ReportPatch where
  name : Option (Option String) := none
  date : Option (Option YMDate) := none
  kmIn : Option (Option Int) := none
  kmOut : Option (Option Int) := none
  site1 : Option (Option String) := none
  serviceReport1 : Option (Option String) := none
  site2 : Option (Option String) := none
  serviceReport2 : Option (Option String) := none
  site3 : Option (Option String) := none
  site4 : Option (Option String) := none
  serviceReport3 : Option (Option String) := none
  transportMode : Option (Option String) := none
  totalKm : Option (Option Int) := none
  amount : Option (Option String) := none
  paidOn : Option (Option YMDate) := none
deriving DecidableEq, Repr

/-- Models `UPDATE reports SET <supplied fields> ...` applied to one row. -/
def applyReportPatch (r : Report) (p : ReportPatch) : Report :=
  { r with
    name := p.name.getD r.name
    date := p.date.getD r.date
    kmIn := p.kmIn.getD r.kmIn
    kmOut := p.kmOut.getD r.kmOut
    site1 := p.site1.getD r.site1
    serviceReport1 := p.serviceReport1.getD r.serviceReport1
    site2 := p.site2.getD r.site2
    serviceReport2 := p.serviceReport2.getD r.serviceReport2
    site3 := p.site3.getD r.site3
    site4 := p.site4.getD r.site4
    serviceReport3 := p.serviceReport3.getD r.serviceReport3
    transportMode := p.transportMode.getD r.transportMode
    totalKm := p.totalKm.getD r.totalKm
    amount := p.amount.getD r.amount
    paidOn := p.paidOn.getD r.paidOn }

/-- The empty partial update for reports. -/
def emptyReportPatch : ReportPatch := {}

/-- The `reports` table: rows plus the `AUTO_INCREMENT` counter. -/
structure ReportStore where
  rows : List Report
  nextId : Nat
deriving DecidableEq, Repr

/-- The query-string filters of `GET /api/reports`. -/
structure ReportFilters where
  search : Option String := none
  fromDate : Option String := none
  toDate : Option String := none
deriving DecidableEq, Repr

/-- Models `ORDER BY reports.date DESC`. -/
def rDesc (a b : Report) : Prop := odateLeB b.date a.date = true

instance : DecidableRel rDesc :=
  fun a b => inferInstanceAs (Decidable (odateLeB b.date a.date = true))

/-- Models `reports.date >= ?` with the bound cast from a string; a `NULL` row
date or an unparseable bound never matches. -/
def dateGteCond (bound : String) (d : Option YMDate) : Bool :=
  match parseYMD bound, d with
  | some b, some x => dateLeB b x
  | _, _ => false

/-- Models `reports.date <= ?` with the bound cast from a string. -/
def dateLteCond (bound : String) (d : Option YMDate) : Bool :=
  match parseYMD bound, d with
  | some b, some x => dateLeB x b
  | _, _ => false

/-- The conjunction of the WHERE conditions `getReports` builds. -/
def reportMatches (f : ReportFilters) (r : Report) : Bool :=
  (match f.search with
   | some s => if s = "" then true else likeCol s r.name
   | none => true) &&
  (match f.fromDate with
   | some s => if s = "" then true else dateGteCond s r.date
   | none => true) &&
  (match f.toDate with
   | some s => if s = "" then true else dateLteCond s r.date
   | none => true)

/-- The guard `if (filters?.search || filters?.fromDate ||
filters?.toDate)`. -/
def rfActive (f : ReportFilters) : Bool :=
  strActive f.search || strActive f.fromDate || strActive f.toDate

/-- Embeds `MySQLStorage.getReports`: optional conjunctive WHERE clause, then
`ORDER BY date DESC`. -/
def getReports (store : ReportStore) (f : ReportFilters) : List Report :=
  let base :=
    if rfActive f then store.rows.filter (reportMatches f) else store.rows
  List.insertionSort rDesc base

/-- Models `SELECT * FROM reports WHERE id = ?`, first row or undefined. -/
def getReportById (store : ReportStore) (id : Nat) : Option Report :=
  store.rows.find? (fun r => r.id == id)

/-- The row built by `createReport`: the insert payload as supplied,
nothing recomputed. -/
def mkReport (id : Nat) (ins : InsertReport) : Report :=
  { id := id
    name := ins.name
    date := ins.date
    kmIn := ins.kmIn
    kmOut := ins.kmOut
    site1 := ins.site1
    serviceReport1 := ins.serviceReport1
    site2 := ins.site2
    serviceReport2 := ins.serviceReport2
    site3 := ins.site3
    site4 := ins.site4
    serviceReport3 := ins.serviceReport3
    transportMode := ins.transportMode
    totalKm := ins.totalKm
    amount := ins.amount
    paidOn := ins.paidOn }

/-- Embeds `MySQLStorage.createReport`: inserts the payload verbatim and returns
the new row. -/
def createReport (store : ReportStore) (ins : InsertReport) :
    ReportStore × Report :=
  let r := mkReport store.nextId ins
  (⟨store.rows ++ [r], store.nextId + 1⟩, r)

/-- True when a `Partial<InsertReport>` supplies no fields at all. -/
def reportPatchIsEmpty (p : ReportPatch) : Bool := p == emptyReportPatch

/-- Embeds `MySQLStorage.updateReport`.  As for tickets, an empty partial
makes the ORM throw (`No values to set`), so the method rethrows the
generic `Failed to update report` error with the database untouched;
otherwise it updates the supplied fields and re-reads the row by id. -/
def updateReport (store : ReportStore) (id : Nat) (p : ReportPatch) :
    ReportStore × Except String (Option Report) :=
  if reportPatchIsEmpty p then (store, .error "Failed to update report")
  else
    let rows := store.rows.map (fun r => if r.id == id then applyReportPatch r p else r)
    let st : ReportStore := ⟨rows, store.nextId⟩
    (st, .ok (getReportById st id))

/-- Embeds `MySQLStorage.deleteReport`. -/
def deleteReport (store : ReportStore) (id : Nat) : ReportStore × Bool :=
  (⟨store.rows.filter (fun r => !(r.id == id)), store.nextId⟩,
   store.rows.any (fun r => r.id == id))

/-- Models `v || ''` for a nullable string column: null and the empty string both
render empty, any other string renders as itself. -/
def jsStr (o : Option String) : String := o.getD ""

/-- Models `v || ''` for a nullable integer column: null renders empty, and so
does the (falsy) number 0; any other integer renders in decimal. -/
def jsInt (o : Option Int) : String :=
  match o with
  | some n => if n = 0 then "" else toString n
  | none => ""

/-- Models `new Date(v).toLocaleDateString()` for the default en-US locale:
`M/D/YYYY`. -/
def locDate (d : YMDate) : String :=
  toString d.month ++ "/" ++ toString d.day ++ "/" ++ toString d.year

/-- Models `v ? new Date(v).toLocaleDateString() : ''` for a nullable date
column. -/
def jsDate (o : Option YMDate) : String :=
  match o with
  | some d => locDate d
  | none => ""

/-- The fixed ticket header row of `exportToExcel`. -/
def ticketHeaders : List String :=
  ["Ticket No", "Date", "Project Type", "Received By", "Site Name",
   "Contact Person", "Mobile", "Address", "Issue", "Remark Details",
   "Attended By", "Attended Date", "Ticket Status", "Closing Date",
   "Paid Status", "Amount Received", "Feedback", "Feedback Date",
   "Feedback Taken By", "Final Remark"]

/-- The fixed report header row of `exportToExcel`. -/
def reportHeaders : List String :=
  ["Name", "Date", "KM In", "KM Out", "Site 1", "Service Report 1",
   "Site 2", "Service Report 2", "Site 3", "Site 4", "Service Report 3",
   "Transport Mode", "Total KM", "Amount", "Paid On"]

/-- The per-ticket data row built by `exportToExcel`. -/
def ticketRow (t : Ticket) : List String :=
  [jsStr t.ticketNo, jsDate t.date, jsStr t.projectType, jsStr t.receivedBy,
   jsStr t.siteName, jsStr t.contactPerson, jsStr t.mobile, jsStr t.address,
   jsStr t.issue, jsStr t.remarkDetails, jsStr t.attendedBy,
   jsDate t.attendedDate, jsStr t.ticketStatus, jsDate t.closingDate,
   jsStr t.paidStatus, jsStr t.amountReceived, jsStr t.feedback,
   jsDate t.feedbackDate, jsStr t.feedbackTakenBy, jsStr t.finalRemark]

/-- The per-report data row built by `exportToExcel`. -/
def reportRow (r : Report) : List String :=
  [jsStr r.name, jsDate r.date, jsInt r.kmIn, jsInt r.kmOut, jsStr r.site1,
   jsStr r.serviceReport1, jsStr r.site2, jsStr r.serviceReport2,
   jsStr r.site3, jsStr r.site4, jsStr r.serviceReport3,
   jsStr r.transportMode, jsInt r.totalKm, jsStr r.amount, jsDate r.paidOn]

/-- Models `Math.max` over a list of lengths. -/
def natMax (l : List Nat) : Nat := l.foldr max 0

/-- One auto-sized column width:
`min(max(header.length, ...cell lengths) + 2, 50)`. -/
def colWidth (header : String) (cellLens : List Nat) : Nat :=
  min (max header.length (natMax cellLens) + 2) 50

/-- The auto-sized widths of all columns. -/
def colWidths (headers : List String) (rows : List (List String)) :
    List Nat :=
  (List.range headers.length).map (fun i =>
    colWidth (headers.getD i "") (rows.map (fun row => (row.getD i "").length)))

/-- Models `new Date().toISOString().split('T')[0]`: `YYYY-MM-DD`. -/
def isoDate (d : YMDate) : String :=
  let pad2 := fun (n : Nat) => if n < 10 then "0" ++ toString n else toString n
  toString d.year ++ "-" ++ pad2 d.month ++ "-" ++ pad2 d.day

/-- The `data` argument of `exportToExcel` together with its `type` tag. -/
inductive ExportData where
  | tickets (ts : List Ticket)
  | reports (rs : List Report)
deriving DecidableEq, Repr

/-- Models `data.length`. -/
def edLength : ExportData → Nat
  | .tickets ts => ts.length
  | .reports rs => rs.length

/-- The produced spreadsheet: sheet name, header row plus data rows,
column widths, and the timestamped output filename. -/
structure Workbook where
  sheetName : String
  cells : List (List String)
  widths : List Nat
  filename : String
deriving DecidableEq, Repr

/-- Embeds `exportToExcel` from `client/src/lib/excel.ts`: throws
"No data to export" on an absent or empty record list, otherwise builds
the header row, one rendered row per record, the auto-sized column widths
and the `<base>_<ISO-date>.xlsx` filename. -/
def exportToExcel (data : Option ExportData) (filename : String)
    (today : YMDate) : Except String Workbook :=
  match data with
  | none => .error "No data to export"
  | some ed =>
    if edLength ed = 0 then .error "No data to export"
    else
      let headers := match ed with
        | .tickets _ => ticketHeaders
        | .reports _ => reportHeaders
      let rows := match ed with
        | .tickets ts => ts.map ticketRow
        | .reports rs => rs.map reportRow
      let sheet := match ed with
        | .tickets _ => "Tickets"
        | .reports _ => "Reports"
      .ok ⟨sheet, headers :: rows, colWidths headers rows,
           filename ++ "_" ++ isoDate today ++ ".xlsx"⟩

/-- Normalises a filter value as the spec reads it: a value counts as
supplied only when it is a non-empty string. -/
def activeVal (o : Option String) : Option String :=
  match o with
  | some s => if s = "" then none else some s
  | none => none

/-- From the spec: the ticket list predicate — case-insensitive substring
search against ticket number OR site name OR contact person, AND
exact-match status, AND exact-match project type, each used only when
supplied and non-empty. -/
def ticketSpecPred (f : TicketFilters) (t : Ticket) : Bool :=
  (match activeVal f.search with
   | some s => ticketSearchHit s t
   | none => true) &&
  (match activeVal f.status with
   | some s => t.ticketStatus == some s
   | none => true) &&
  (match activeVal f.projectType with
   | some s => t.projectType == some s
   | none => true)

/-- From the spec: the report list predicate — substring match on staff
name AND inclusive from/to date bounds, each used only when supplied and
non-empty; either bound may be omitted independently. -/
def reportSpecPred (f : ReportFilters) (r : Report) : Bool :=
  (match activeVal f.search with
   | some s => likeCol s r.name
   | none => true) &&
  (match activeVal f.fromDate with
   | some s => dateGteCond s r.date
   | none => true) &&
  (match activeVal f.toDate with
   | some s => dateLteCond s r.date
   | none => true)

/-- Replaces every empty-string ticket filter value by an absent one. -/
def normTF (f : TicketFilters) : TicketFilters :=
  ⟨activeVal f.search, activeVal f.status, activeVal f.projectType⟩

/-- Replaces every empty-string report filter value by an absent one. -/
def normRF (f : ReportFilters) : ReportFilters :=
  ⟨activeVal f.search, activeVal f.fromDate, activeVal f.toDate⟩

/-! ## Order lemmas for the `ORDER BY date DESC` relation -/

theorem odateLeB_total (a b : Option YMDate) :
    odateLeB a b = true ∨ odateLeB b a = true := by
  cases a <;> cases b <;> simp [odateLeB, dateLeB] <;> omega

theorem odateLeB_trans (a b c : Option YMDate) :
    odateLeB a b = true → odateLeB b c = true → odateLeB a c = true := by
  cases a <;> cases b <;> cases c <;> simp [odateLeB, dateLeB] <;> omega

instance : IsTotal Ticket tDesc :=
  ⟨fun a b => odateLeB_total b.date a.date⟩

instance : IsTrans Ticket tDesc :=
  ⟨fun _ b _ hab hbc => odateLeB_trans _ b.date _ hbc hab⟩

instance : IsTotal Report rDesc :=
  ⟨fun a b => odateLeB_total b.date a.date⟩

instance : IsTrans Report rDesc :=
  ⟨fun _ b _ hab hbc => odateLeB_trans _ b.date _ hbc hab⟩

/-! ## Helper lemmas about the ticket-number generator -/

theorem countTicketsInYear_append_hit (rows : List Ticket) {t : Ticket}
    {y : Nat} (h : t.date.map YMDate.year = some y) :
    countTicketsInYear (rows ++ [t]) y = countTicketsInYear rows y + 1 := by
  obtain ⟨d, hd, hdy⟩ := Option.map_eq_some'.1 h
  simp [countTicketsInYear, List.countP_append, List.countP_cons, hd, hdy]

/-- C1: for every insert input — whatever `ticketNo` the client supplies —
`createTicket` assigns the persisted ticket number by counting the
existing tickets dated in the current calendar year, adding one,
zero-padding to 3 digits and prefixing `TKT-<year>-`; in particular two
sequential creations in 2025 (tickets dated in 2025) into a store with no
other tickets dated in 2025 yield `TKT-2025-001` then `TKT-2025-002`. -/
theorem C1_createTicket_number :
    (∀ (now : YMDate) (store : TicketStore) (ins : InsertTicket),
        (createTicket now store ins).2.ticketNo
            = some (tktString now.year (countTicketsInYear store.rows now.year + 1))
        ∧ ∀ s : String,
            (createTicket now store { ins with ticketNo := some s }).2.ticketNo
              = (createTicket now store ins).2.ticketNo)
    ∧ (∀ (now : YMDate) (store : TicketStore) (ins1 ins2 : InsertTicket)
          (d : YMDate),
        now.year = 2025 →
        countTicketsInYear store.rows 2025 = 0 →
        ins1.date = some d → d.year = 2025 →
        (createTicket now store ins1).2.ticketNo = some "TKT-2025-001"
        ∧ (createTicket now (createTicket now store ins1).1 ins2).2.ticketNo
            = some "TKT-2025-002") := by
  constructor
  · exact fun now store ins => ⟨rfl, fun s => rfl⟩
  · intro now store ins1 ins2 d hy hc hd hdy
    have h1 : (createTicket now store ins1).2.ticketNo
        = some (tktString now.year (countTicketsInYear store.rows now.year + 1)) := rfl
    have hrows : (createTicket now store ins1).1.rows
        = store.rows ++ [(createTicket now store ins1).2] := rfl
    have hmap : (createTicket now store ins1).2.date.map YMDate.year = some 2025 := by
      have : (createTicket now store ins1).2.date = ins1.date := rfl
      rw [this, hd]
      simp [hdy]
    have h2 : (createTicket now (createTicket now store ins1).1 ins2).2.ticketNo
        = some (tktString now.year
            (countTicketsInYear (createTicket now store ins1).1.rows now.year + 1)) := rfl
    constructor
    · rw [h1, hy, hc]; decide
    · rw [h2, hy, hrows, countTicketsInYear_append_hit store.rows hmap, hc]; decide

theorem C1_witness :
    (createTicket ⟨2025, 6, 1⟩ ⟨[], 1⟩ { date := some ⟨2025, 6, 1⟩ }).2.ticketNo
        = some "TKT-2025-001"
    ∧ (createTicket ⟨2025, 6, 1⟩
          (createTicket ⟨2025, 6, 1⟩ ⟨[], 1⟩ { date := some ⟨2025, 6, 1⟩ }).1
          { date := some ⟨2025, 6, 2⟩ }).2.ticketNo = some "TKT-2025-002" :=
  C1_createTicket_number.2 ⟨2025, 6, 1⟩ ⟨[], 1⟩ { date := some ⟨2025, 6, 1⟩ }
    { date := some ⟨2025, 6, 2⟩ } ⟨2025, 6, 1⟩ rfl (by decide) rfl rfl

theorem createTickets_numbering (now : YMDate) :
    ∀ (inss : List InsertTicket) (store : TicketStore),
      (∀ ins ∈ inss, ins.date.map YMDate.year = some now.year) →
      (createTickets now store inss).2.map Ticket.ticketNo
          = (List.range' (countTicketsInYear store.rows now.year + 1)
              inss.length).map (fun k => some (tktString now.year k))
      ∧ (createTickets now store inss).1.rows
          = store.rows ++ (createTickets now store inss).2 := by
  intro inss
  induction inss with
  | nil => intro store _; simp [createTickets]
  | cons ins rest ih =>
    intro store h
    have hhead : ins.date.map YMDate.year = some now.year :=
      h ins (List.mem_cons_self ..)
    have htail : ∀ i ∈ rest, i.date.map YMDate.year = some now.year :=
      fun i hi => h i (List.mem_cons_of_mem _ hi)
    obtain ⟨ihm, ihr⟩ := ih (createTicket now store ins).1 htail
    have hcount : countTicketsInYear (createTicket now store ins).1.rows now.year
        = countTicketsInYear store.rows now.year + 1 :=
      countTicketsInYear_append_hit store.rows hhead
    rw [hcount] at ihm
    constructor
    · show ((createTicket now store ins).2 ::
          (createTickets now (createTicket now store ins).1 rest).2).map Ticket.ticketNo
        = _
      rw [List.map_cons, ihm, List.length_cons, List.range'_succ, List.map_cons]
      rfl
    · show (createTickets now (createTicket now store ins).1 rest).1.rows
        = store.rows ++ ((createTicket now store ins).2 ::
            (createTickets now (createTicket now store ins).1 rest).2)
      rw [ihr]
      show store.rows ++ [(createTicket now store ins).2] ++ _ = _
      rw [List.append_assoc, List.singleton_append]

/-- C2 (amended): for sequences of sequential `createTicket` operations
with no intervening deletions, in which every created ticket is dated in
the current calendar year, the assigned ticket numbers are
`TKT-<year>-<pad3 k>` for consecutive, strictly increasing sequence
numbers `k`; the assigned (year, sequence) pairs are pairwise distinct,
and the store afterwards holds exactly the prior rows plus the created
ones.  (The original claim, which also allowed `deleteTicket` steps, is
refuted by `C2_counterexample`: numbering is derived from a row count, so
a deletion lets a later creation reuse a live ticket number.) -/
theorem C2_ticket_numbers_create_only
    (now : YMDate) (store : TicketStore) (inss : List InsertTicket)
    (h : ∀ ins ∈ inss, ins.date.map YMDate.year = some now.year) :
    (createTickets now store inss).2.map Ticket.ticketNo
        = (List.range' (countTicketsInYear store.rows now.year + 1)
            inss.length).map (fun k => some (tktString now.year k))
    ∧ (List.range' (countTicketsInYear store.rows now.year + 1)
        inss.length).Pairwise (· < ·)
    ∧ ((List.range' (countTicketsInYear store.rows now.year + 1)
        inss.length).map (fun k => (now.year, k))).Pairwise (· ≠ ·)
    ∧ (createTickets now store inss).1.rows
        = store.rows ++ (createTickets now store inss).2 := by
  obtain ⟨hm, hr⟩ := createTickets_numbering now inss store h
  refine ⟨hm, List.pairwise_lt_range' .., ?_, hr⟩
  refine List.pairwise_map.2 ((List.pairwise_lt_range' ..).imp ?_)
  intro a b hab heq
  exact Nat.ne_of_lt hab (congrArg Prod.snd heq)

theorem C2_witness :
    (∀ ins ∈ [({ date := some ⟨2025, 3, 1⟩ } : InsertTicket),
              { date := some ⟨2025, 3, 2⟩ }],
        ins.date.map YMDate.year = some (2025 : Nat))
    ∧ (createTickets ⟨2025, 3, 2⟩ ⟨[], 1⟩
          [{ date := some ⟨2025, 3, 1⟩ }, { date := some ⟨2025, 3, 2⟩ }]).2.map
        Ticket.ticketNo
        = [some "TKT-2025-001", some "TKT-2025-002"] := by
  have h := C2_ticket_numbers_create_only ⟨2025, 3, 2⟩ ⟨[], 1⟩
    [{ date := some ⟨2025, 3, 1⟩ }, { date := some ⟨2025, 3, 2⟩ }] (by decide)
  exact ⟨by decide, by rw [h.1]; decide⟩

/-- C2 (counterexample to the original claim): with a `deleteTicket` step
interleaved, sequential operations assign a duplicate ticket number.
Starting from an empty store in 2025: create (gets `TKT-2025-001`),
create (gets `TKT-2025-002`), delete the first ticket, create again — the
third creation is also assigned `TKT-2025-002`, so the assigned numbers
are not strictly increasing and two tickets simultaneously in the store
carry the same (year, sequence) number. -/
theorem C2_counterexample :
    (let s0 : TicketStore := ⟨[], 1⟩
     let nowd : YMDate := ⟨2025, 1, 10⟩
     let r1 := createTicket nowd s0 { date := some ⟨2025, 1, 10⟩ }
     let r2 := createTicket nowd r1.1 { date := some ⟨2025, 1, 11⟩ }
     let r3 := deleteTicket r2.1 1
     let r4 := createTicket nowd r3.1 { date := some ⟨2025, 1, 12⟩ }
     r1.2.ticketNo = some "TKT-2025-001"
     ∧ r2.2.ticketNo = some "TKT-2025-002"
     ∧ r4.2.ticketNo = some "TKT-2025-002"
     ∧ r4.1.rows.map Ticket.ticketNo
         = [some "TKT-2025-002", some "TKT-2025-002"]
     ∧ r4.1.rows.map Ticket.id = [2, 3]) := by
  decide

theorem applyTicketPatch_ticketNo_of_none {p : TicketPatch}
    (h : p.ticketNo = none) (t : Ticket) :
    (applyTicketPatch t p).ticketNo = t.ticketNo := by
  simp [applyTicketPatch, h]

theorem find?_updated_ticketNo (id : Nat) {p : TicketPatch}
    (h : p.ticketNo = none) :
    ∀ rows : List Ticket,
      ((rows.map (fun t => if t.id == id then applyTicketPatch t p else t)).find?
          (fun t => t.id == id)).map Ticket.ticketNo
        = (rows.find? (fun t => t.id == id)).map Ticket.ticketNo := by
  intro rows
  induction rows with
  | nil => rfl
  | cons t rest ih =>
    by_cases hid : (t.id == id) = true
    · have h1 : ∀ l : List Ticket,
          List.find? (fun x => x.id == id) (applyTicketPatch t p :: l)
            = some (applyTicketPatch t p) :=
        fun l => List.find?_cons_of_pos l hid
      have h2 : List.find? (fun x => x.id == id) (t :: rest) = some t :=
        List.find?_cons_of_pos rest hid
      rw [List.map_cons, if_pos hid, h1, h2, Option.map_some', Option.map_some',
        applyTicketPatch_ticketNo_of_none h]
    · have h3 : ∀ l : List Ticket,
          List.find? (fun x => x.id == id) (t :: l)
            = List.find? (fun x => x.id == id) l :=
        fun l => List.find?_cons_of_neg l hid
      rw [List.map_cons, if_neg hid, h3, h3]
      exact ih

/-- C3 (amended): a ticket's number is unchanged by any `updateTicket`
call whose partial does NOT itself supply a `ticketNo` field — both in
the stored rows and in the returned record.  (The original claim — that
NO update whatsoever can change the ticket number — is refuted by
`C3_counterexample`: the route passes the request body straight into
`UPDATE ... SET`, and the insert schema includes `ticketNo`, so a partial
carrying `ticketNo` overwrites the assigned number.) -/
theorem C3_ticketNo_immutable_without_override
    (store : TicketStore) (id : Nat) (p : TicketPatch)
    (h : p.ticketNo = none) :
    (updateTicket store id p).1.rows.map Ticket.ticketNo
        = store.rows.map Ticket.ticketNo
    ∧ ∀ ret : Option Ticket, (updateTicket store id p).2 = Except.ok ret →
        ret.map Ticket.ticketNo = (getTicketById store id).map Ticket.ticketNo := by
  by_cases he : ticketPatchIsEmpty p = true
  · have heq : updateTicket store id p
        = (store, Except.error "Failed to update ticket") := by
      unfold updateTicket
      rw [if_pos he]
    refine ⟨by rw [heq], fun ret hret => ?_⟩
    rw [heq] at hret
    exact absurd hret (by simp)
  · have heq : updateTicket store id p
        = (⟨store.rows.map
              (fun t => if t.id == id then applyTicketPatch t p else t),
            store.nextId⟩,
           Except.ok (getTicketById
            ⟨store.rows.map
              (fun t => if t.id == id then applyTicketPatch t p else t),
             store.nextId⟩ id)) := by
      unfold updateTicket
      rw [if_neg he]
    constructor
    · rw [heq]
      show (store.rows.map
          (fun t => if t.id == id then applyTicketPatch t p else t)).map
            Ticket.ticketNo = _
      rw [List.map_map]
      refine List.map_congr_left (fun t _ => ?_)
      by_cases hid : (t.id == id) = true
      · show (if t.id == id then applyTicketPatch t p else t).ticketNo = _
        rw [if_pos hid, applyTicketPatch_ticketNo_of_none h]
      · show (if t.id == id then applyTicketPatch t p else t).ticketNo = _
        rw [if_neg hid]
    · intro ret hret
      rw [heq] at hret
      have hr := Except.ok.inj hret
      rw [← hr]
      exact find?_updated_ticketNo id h store.rows

theorem C3_witness :
    ((updateTicket ⟨[{ id := 1, ticketNo := some "TKT-2025-001" }], 2⟩ 1
        { ticketStatus := some (some "Closed") }).1.rows.map Ticket.ticketNo
      = (⟨[{ id := 1, ticketNo := some "TKT-2025-001" }], 2⟩ :
          TicketStore).rows.map Ticket.ticketNo)
    ∧ ((some { id := 1, ticketNo := some "TKT-2025-001",
               ticketStatus := some "Closed" } : Option Ticket).map Ticket.ticketNo
      = (getTicketById ⟨[{ id := 1, ticketNo := some "TKT-2025-001" }], 2⟩ 1).map
          Ticket.ticketNo) := by
  have h := C3_ticketNo_immutable_without_override
    ⟨[{ id := 1, ticketNo := some "TKT-2025-001" }], 2⟩ 1
    { ticketStatus := some (some "Closed") } rfl
  exact ⟨h.1, h.2 (some { id := 1, ticketNo := some "TKT-2025-001",
                          ticketStatus := some "Closed" }) rfl⟩

/-- C3 (counterexample to the original claim): an `updateTicket` whose
partial supplies a `ticketNo` field changes the stored and returned
ticket number. -/
theorem C3_counterexample :
    (let st : TicketStore := ⟨[{ id := 1, ticketNo := some "TKT-2025-001" }], 2⟩
     let p : TicketPatch := { ticketNo := some (some "TKT-1999-123") }
     (getTicketById st 1).map Ticket.ticketNo = some (some "TKT-2025-001")
     ∧ (updateTicket st 1 p).2
         = Except.ok (some { id := 1, ticketNo := some "TKT-1999-123" })
     ∧ (updateTicket st 1 p).1.rows.map Ticket.ticketNo
         = [some "TKT-1999-123"]) :=
  ⟨rfl, rfl, rfl⟩

theorem ticketMatches_eq_spec (f : TicketFilters) (t : Ticket) :
    ticketMatches f t = ticketSpecPred f t := by
  rcases f with ⟨s, st, pt⟩
  cases s <;> cases st <;> cases pt <;>
    simp only [ticketMatches, ticketSpecPred, activeVal] <;>
    split_ifs <;> simp_all

theorem reportMatches_eq_spec (f : ReportFilters) (r : Report) :
    reportMatches f r = reportSpecPred f r := by
  rcases f with ⟨s, fd, td⟩
  cases s <;> cases fd <;> cases td <;>
    simp only [reportMatches, reportSpecPred, activeVal] <;>
    split_ifs <;> simp_all

theorem ticketMatches_of_inactive {f : TicketFilters}
    (h : tfActive f = false) (t : Ticket) : ticketMatches f t = true := by
  rcases f with ⟨s, st, pt⟩
  simp only [tfActive, strActive, Bool.or_eq_false_iff] at h
  obtain ⟨⟨h1, h2⟩, h3⟩ := h
  cases s <;> cases st <;> cases pt <;> simp_all [ticketMatches]

theorem reportMatches_of_inactive {f : ReportFilters}
    (h : rfActive f = false) (r : Report) : reportMatches f r = true := by
  rcases f with ⟨s, fd, td⟩
  simp only [rfActive, strActive, Bool.or_eq_false_iff] at h
  obtain ⟨⟨h1, h2⟩, h3⟩ := h
  cases s <;> cases fd <;> cases td <;> simp_all [reportMatches]

theorem getTickets_eq_sort_filter (store : TicketStore) (f : TicketFilters) :
    getTickets store f
      = List.insertionSort tDesc (store.rows.filter (ticketMatches f)) := by
  unfold getTickets
  by_cases h : tfActive f = true
  · rw [if_pos h]
  · have hf : tfActive f = false := Bool.eq_false_iff.2 (by exact h)
    rw [if_neg h, List.filter_eq_self.2
      (fun a _ => ticketMatches_of_inactive hf a)]

theorem getReports_eq_sort_filter (store : ReportStore) (f : ReportFilters) :
    getReports store f
      = List.insertionSort rDesc (store.rows.filter (reportMatches f)) := by
  unfold getReports
  by_cases h : rfActive f = true
  · rw [if_pos h]
  · have hf : rfActive f = false := Bool.eq_false_iff.2 (by exact h)
    rw [if_neg h, List.filter_eq_self.2
      (fun a _ => reportMatches_of_inactive hf a)]

/-- C4: for every combination of supplied filters, `getTickets` and
`getReports` return exactly (up to order, a permutation of) the stored
rows satisfying the conjunction of all supplied filter predicates — for
tickets, case-insensitive substring search against ticket number OR site
name OR contact person, AND exact-match status, AND exact-match project
type; for reports, substring match on staff name AND inclusive from/to
date bounds — and the result is ordered by date descending. -/
theorem C4_list_filter_and_order :
    ∀ (ts : TicketStore) (f : TicketFilters) (rs : ReportStore)
      (g : ReportFilters),
      (getTickets ts f).Perm (ts.rows.filter (fun t => ticketSpecPred f t))
      ∧ (getTickets ts f).Sorted tDesc
      ∧ (getReports rs g).Perm (rs.rows.filter (fun r => reportSpecPred g r))
      ∧ (getReports rs g).Sorted rDesc := by
  intro ts f rs g
  have hf : ts.rows.filter (ticketMatches f)
      = ts.rows.filter (fun t => ticketSpecPred f t) :=
    List.filter_congr (fun t _ => ticketMatches_eq_spec f t)
  have hg : rs.rows.filter (reportMatches g)
      = rs.rows.filter (fun r => reportSpecPred g r) :=
    List.filter_congr (fun r _ => reportMatches_eq_spec g r)
  refine ⟨?_, ?_, ?_, ?_⟩
  · rw [getTickets_eq_sort_filter, hf]
    exact List.perm_insertionSort _ _
  · rw [getTickets_eq_sort_filter]
    exact List.sorted_insertionSort _ _
  · rw [getReports_eq_sort_filter, hg]
    exact List.perm_insertionSort _ _
  · rw [getReports_eq_sort_filter]
    exact List.sorted_insertionSort _ _

theorem activeVal_idem (o : Option String) :
    activeVal (activeVal o) = activeVal o := by
  cases o with
  | none => rfl
  | some s =>
    by_cases hs : s = "" <;> simp [activeVal, hs]

theorem ticketSpecPred_norm (f : TicketFilters) (t : Ticket) :
    ticketSpecPred (normTF f) t = ticketSpecPred f t := by
  simp only [ticketSpecPred, normTF, activeVal_idem]

theorem reportSpecPred_norm (f : ReportFilters) (r : Report) :
    reportSpecPred (normRF f) r = reportSpecPred f r := by
  simp only [reportSpecPred, normRF, activeVal_idem]

/-- C5: a filter value is used only when it is a non-empty string —
replacing any set of empty-string filter values by absent ones (as
`normTF`/`normRF` do, covering each date bound independently) leaves the
result of `getTickets`/`getReports` unchanged, and a call with no filter
values supplied returns every stored record (a permutation of the whole
table, in date-descending order). -/
theorem C5_empty_filters_ignored :
    ∀ (ts : TicketStore) (f : TicketFilters) (rs : ReportStore)
      (g : ReportFilters),
      getTickets ts (normTF f) = getTickets ts f
      ∧ (getTickets ts ⟨none, none, none⟩).Perm ts.rows
      ∧ getReports rs (normRF g) = getReports rs g
      ∧ (getReports rs ⟨none, none, none⟩).Perm rs.rows := by
  intro ts f rs g
  refine ⟨?_, ?_, ?_, ?_⟩
  · rw [getTickets_eq_sort_filter, getTickets_eq_sort_filter,
      List.filter_congr (fun t _ => ticketMatches_eq_spec (normTF f) t),
      List.filter_congr (fun t _ => ticketMatches_eq_spec f t)]
    congr 1
    exact List.filter_congr (fun t _ => ticketSpecPred_norm f t)
  · simp only [getTickets, tfActive, strActive, Bool.or_self, if_neg]
    exact List.perm_insertionSort _ _
  · rw [getReports_eq_sort_filter, getReports_eq_sort_filter,
      List.filter_congr (fun r _ => reportMatches_eq_spec (normRF g) r),
      List.filter_congr (fun r _ => reportMatches_eq_spec g r)]
    congr 1
    exact List.filter_congr (fun r _ => reportSpecPred_norm g r)
  · simp only [getReports, rfActive, strActive, Bool.or_self, if_neg]
    exact List.perm_insertionSort _ _

theorem applyTicketPatch_empty (t : Ticket) :
    applyTicketPatch t emptyTicketPatch = t := rfl

theorem applyReportPatch_empty (r : Report) :
    applyReportPatch r emptyReportPatch = r := rfl

/-- C6 (amended): `updateTicket` and `updateReport` called with an empty
partial do NOT return the unchanged record: the ORM cannot build an empty
`UPDATE ... SET` clause (drizzle throws `No values to set`), so the call
raises the generic `Failed to update ticket` / `Failed to update report`
error, with every stored record left unmodified; called with a nonempty
partial on a nonexistent id they return "not found" (`none`) while
leaving every stored record unmodified.  (The original claim — empty
partial returns the record with all fields unchanged — is refuted by
`C6_counterexample`.) -/
theorem C6_update_empty_errors_and_not_found :
    ∀ (ts : TicketStore) (i : Nat) (p : TicketPatch) (rs : ReportStore)
      (j : Nat) (q : ReportPatch),
      ((updateTicket ts i emptyTicketPatch).2
          = Except.error "Failed to update ticket"
        ∧ (updateTicket ts i emptyTicketPatch).1 = ts)
      ∧ (ticketPatchIsEmpty p = false → getTicketById ts i = none →
          (updateTicket ts i p).1 = ts
          ∧ (updateTicket ts i p).2 = Except.ok none)
      ∧ ((updateReport rs j emptyReportPatch).2
          = Except.error "Failed to update report"
        ∧ (updateReport rs j emptyReportPatch).1 = rs)
      ∧ (reportPatchIsEmpty q = false → getReportById rs j = none →
          (updateReport rs j q).1 = rs
          ∧ (updateReport rs j q).2 = Except.ok none) := by
  intro ts i p rs j q
  refine ⟨⟨rfl, rfl⟩, ?_, ⟨rfl, rfl⟩, ?_⟩
  · intro hpe h
    have hne : ¬ ticketPatchIsEmpty p = true := by
      rw [hpe]
      exact Bool.false_ne_true
    have heq : updateTicket ts i p
        = (⟨ts.rows.map
              (fun t => if t.id == i then applyTicketPatch t p else t),
            ts.nextId⟩,
           Except.ok (getTicketById
            ⟨ts.rows.map
              (fun t => if t.id == i then applyTicketPatch t p else t),
             ts.nextId⟩ i)) := by
      unfold updateTicket
      rw [if_neg hne]
    have hall : ∀ t ∈ ts.rows, ¬((fun t : Ticket => t.id == i) t = true) :=
      List.find?_eq_none.1 h
    have hmap2 : ts.rows.map
        (fun t => if t.id == i then applyTicketPatch t p else t) = ts.rows := by
      have h1 : ∀ t ∈ ts.rows,
          (if t.id == i then applyTicketPatch t p else t) = t :=
        fun t ht => if_neg (hall t ht)
      calc ts.rows.map (fun t => if t.id == i then applyTicketPatch t p else t)
          = ts.rows.map (fun t => t) := List.map_congr_left h1
        _ = ts.rows := List.map_id' ts.rows
    constructor
    · rw [heq]
      show (⟨ts.rows.map _, ts.nextId⟩ : TicketStore) = ts
      rw [hmap2]
    · rw [heq]
      show Except.ok (getTicketById ⟨ts.rows.map _, ts.nextId⟩ i)
        = Except.ok none
      rw [hmap2]
      exact congrArg Except.ok h
  · intro hpe h
    have hne : ¬ reportPatchIsEmpty q = true := by
      rw [hpe]
      exact Bool.false_ne_true
    have heq : updateReport rs j q
        = (⟨rs.rows.map
              (fun r => if r.id == j then applyReportPatch r q else r),
            rs.nextId⟩,
           Except.ok (getReportById
            ⟨rs.rows.map
              (fun r => if r.id == j then applyReportPatch r q else r),
             rs.nextId⟩ j)) := by
      unfold updateReport
      rw [if_neg hne]
    have hall : ∀ r ∈ rs.rows, ¬((fun r : Report => r.id == j) r = true) :=
      List.find?_eq_none.1 h
    have hmap2 : rs.rows.map
        (fun r => if r.id == j then applyReportPatch r q else r) = rs.rows := by
      have h1 : ∀ r ∈ rs.rows,
          (if r.id == j then applyReportPatch r q else r) = r :=
        fun r hr => if_neg (hall r hr)
      calc rs.rows.map (fun r => if r.id == j then applyReportPatch r q else r)
          = rs.rows.map (fun r => r) := List.map_congr_left h1
        _ = rs.rows := List.map_id' rs.rows
    constructor
    · rw [heq]
      show (⟨rs.rows.map _, rs.nextId⟩ : ReportStore) = rs
      rw [hmap2]
    · rw [heq]
      show Except.ok (getReportById ⟨rs.rows.map _, rs.nextId⟩ j)
        = Except.ok none
      rw [hmap2]
      exact congrArg Except.ok h

theorem C6_witness :
    ((updateTicket ⟨[{ id := 1 }], 2⟩ 7
        { siteName := some (some "HQ") }).1 = ⟨[{ id := 1 }], 2⟩
      ∧ (updateTicket ⟨[{ id := 1 }], 2⟩ 7
        { siteName := some (some "HQ") }).2 = Except.ok none)
    ∧ ((updateReport ⟨[{ id := 1 }], 2⟩ 9
        { name := some (some "Asha") }).1 = ⟨[{ id := 1 }], 2⟩
      ∧ (updateReport ⟨[{ id := 1 }], 2⟩ 9
        { name := some (some "Asha") }).2 = Except.ok none) := by
  have h := C6_update_empty_errors_and_not_found ⟨[{ id := 1 }], 2⟩ 7
    { siteName := some (some "HQ") } ⟨[{ id := 1 }], 2⟩ 9
    { name := some (some "Asha") }
  exact ⟨h.2.1 rfl (by decide), h.2.2.2 rfl (by decide)⟩

/-- C6 (counterexample to the original claim): with a matching record
present, an update with an empty partial does not return the unchanged
record — for both record types it fails with the generic update error
(the ORM rejects the empty `SET` clause). -/
theorem C6_counterexample :
    getTicketById ⟨[{ id := 1, siteName := some "HQ" }], 2⟩ 1
        = some { id := 1, siteName := some "HQ" }
    ∧ (updateTicket ⟨[{ id := 1, siteName := some "HQ" }], 2⟩ 1
        emptyTicketPatch).2 = Except.error "Failed to update ticket"
    ∧ (updateReport ⟨[{ id := 1, name := some "Asha" }], 2⟩ 1
        emptyReportPatch).2 = Except.error "Failed to update report" :=
  ⟨rfl, rfl, rfl⟩

theorem any_filter_ne_false {α : Type} (p : α → Bool) (l : List α) :
    ((l.filter (fun x => !(p x))).any (fun x => p x)) = false := by
  rw [List.any_eq_false]
  intro x hx
  have hmem := List.mem_filter.1 hx
  simp only [Bool.not_eq_true'] at hmem
  simp [hmem.2]

theorem filter_ne_idem {α : Type} (p : α → Bool) (l : List α) :
    (l.filter (fun x => !(p x))).filter (fun x => !(p x))
      = l.filter (fun x => !(p x)) := by
  apply List.filter_eq_self.2
  intro a ha
  exact (List.mem_filter.1 ha).2

/-- C7: `deleteTicket` and `deleteReport` return true iff a row with the
given id was present (and hence removed); the second of two consecutive
deletes of the same id returns false and leaves the store unchanged. -/
theorem C7_delete_success_iff_removed :
    ∀ (ts : TicketStore) (i : Nat) (rs : ReportStore) (j : Nat),
      (deleteTicket ts i).2 = ts.rows.any (fun t => t.id == i)
      ∧ (deleteTicket (deleteTicket ts i).1 i).2 = false
      ∧ (deleteTicket (deleteTicket ts i).1 i).1 = (deleteTicket ts i).1
      ∧ (deleteReport rs j).2 = rs.rows.any (fun r => r.id == j)
      ∧ (deleteReport (deleteReport rs j).1 j).2 = false
      ∧ (deleteReport (deleteReport rs j).1 j).1 = (deleteReport rs j).1 := by
  refine fun ts i rs j => ⟨rfl, any_filter_ne_false _ _, ?_, rfl,
    any_filter_ne_false _ _, ?_⟩
  · show (⟨(ts.rows.filter _).filter _, ts.nextId⟩ : TicketStore) = _
    rw [filter_ne_idem]
    rfl
  · show (⟨(rs.rows.filter _).filter _, rs.nextId⟩ : ReportStore) = _
    rw [filter_ne_idem]
    rfl

/-- C8: `exportToExcel` fails with the explicit error "No data to export"
whenever the record list is absent or empty (for both record types), and
every successfully produced workbook has at least one data row besides
the header (never a zero-row sheet). -/
theorem C8_export_rejects_empty :
    ∀ (fn : String) (today : YMDate) (d : Option ExportData),
      exportToExcel none fn today = Except.error "No data to export"
      ∧ exportToExcel (some (ExportData.tickets [])) fn today
          = Except.error "No data to export"
      ∧ exportToExcel (some (ExportData.reports [])) fn today
          = Except.error "No data to export"
      ∧ (match exportToExcel d fn today with
         | Except.ok w => 2 ≤ w.cells.length
         | Except.error _ => True) := by
  intro fn today d
  refine ⟨rfl, rfl, rfl, ?_⟩
  cases d with
  | none => exact trivial
  | some ed =>
    cases ed with
    | tickets ts =>
      by_cases h : edLength (ExportData.tickets ts) = 0
      · simp only [exportToExcel, if_pos h]
      · simp only [exportToExcel, if_neg h]
        simp only [edLength] at h
        simp [List.length_map]
        omega
    | reports rs =>
      by_cases h : edLength (ExportData.reports rs) = 0
      · simp only [exportToExcel, if_pos h]
      · simp only [exportToExcel, if_neg h]
        simp only [edLength] at h
        simp [List.length_map]
        omega

/-- From the amended C9 wording: a missing/null string field renders as
the empty string, a present string renders as itself. -/
def specCellOfStr : Option String → String
  | none => ""
  | some s => s

/-- From the amended C9 wording: a missing/null numeric field renders as
the empty string, and so does a present value 0 (it is falsy in the
rendering expression); any other number renders in decimal. -/
def specCellOfInt : Option Int → String
  | none => ""
  | some n => if n = 0 then "" else toString n

/-- From the amended C9 wording: a missing/null date renders as the empty
string, a present date as the locale-formatted calendar date. -/
def specCellOfDate : Option YMDate → String
  | none => ""
  | some d => locDate d

/-- The amended per-ticket row characterisation. -/
def specTicketRow (t : Ticket) : List String :=
  [specCellOfStr t.ticketNo, specCellOfDate t.date,
   specCellOfStr t.projectType, specCellOfStr t.receivedBy,
   specCellOfStr t.siteName, specCellOfStr t.contactPerson,
   specCellOfStr t.mobile, specCellOfStr t.address, specCellOfStr t.issue,
   specCellOfStr t.remarkDetails, specCellOfStr t.attendedBy,
   specCellOfDate t.attendedDate, specCellOfStr t.ticketStatus,
   specCellOfDate t.closingDate, specCellOfStr t.paidStatus,
   specCellOfStr t.amountReceived, specCellOfStr t.feedback,
   specCellOfDate t.feedbackDate, specCellOfStr t.feedbackTakenBy,
   specCellOfStr t.finalRemark]

/-- The amended per-report row characterisation. -/
def specReportRow (r : Report) : List String :=
  [specCellOfStr r.name, specCellOfDate r.date, specCellOfInt r.kmIn,
   specCellOfInt r.kmOut, specCellOfStr r.site1,
   specCellOfStr r.serviceReport1, specCellOfStr r.site2,
   specCellOfStr r.serviceReport2, specCellOfStr r.site3,
   specCellOfStr r.site4, specCellOfStr r.serviceReport3,
   specCellOfStr r.transportMode, specCellOfInt r.totalKm,
   specCellOfStr r.amount, specCellOfDate r.paidOn]

theorem jsStr_eq_spec (o : Option String) : jsStr o = specCellOfStr o := by
  cases o <;> rfl

theorem jsInt_eq_spec (o : Option Int) : jsInt o = specCellOfInt o := by
  cases o <;> rfl

theorem jsDate_eq_spec (o : Option YMDate) : jsDate o = specCellOfDate o := by
  cases o <;> rfl

theorem ticketRow_eq_spec (t : Ticket) : ticketRow t = specTicketRow t := by
  simp only [ticketRow, specTicketRow, jsStr_eq_spec, jsInt_eq_spec,
    jsDate_eq_spec]

theorem reportRow_eq_spec (r : Report) : reportRow r = specReportRow r := by
  simp only [reportRow, specReportRow, jsStr_eq_spec, jsInt_eq_spec,
    jsDate_eq_spec]

/-- C9 (amended): in `exportToExcel`, every cell of every data row renders
as: the locale-formatted calendar date string for a present date-typed
field; the empty string for a missing/null field AND for a present falsy
value (in particular a numeric field with value 0, because the code
renders `field || ''`); and the field's natural string form otherwise.
(The original claim — that a present numeric 0 renders as "0" — is
refuted by `C9_counterexample`.) -/
theorem C9_cell_rendering (ts : List Ticket) (rs : List Report)
    (fn : String) (today : YMDate) (hts : ts ≠ []) (hrs : rs ≠ []) :
    ((exportToExcel (some (ExportData.tickets ts)) fn today).toOption.map
        Workbook.cells = some (ticketHeaders :: ts.map specTicketRow))
    ∧ ((exportToExcel (some (ExportData.reports rs)) fn today).toOption.map
        Workbook.cells = some (reportHeaders :: rs.map specReportRow)) := by
  constructor
  · have h : ¬(edLength (ExportData.tickets ts) = 0) := by
      simpa [edLength, List.length_eq_zero] using hts
    simp only [exportToExcel, if_neg h, Except.toOption, Option.map_some']
    rw [List.map_congr_left (fun t _ => ticketRow_eq_spec t)]
  · have h : ¬(edLength (ExportData.reports rs) = 0) := by
      simpa [edLength, List.length_eq_zero] using hrs
    simp only [exportToExcel, if_neg h, Except.toOption, Option.map_some']
    rw [List.map_congr_left (fun r _ => reportRow_eq_spec r)]

theorem C9_witness :
    ((exportToExcel (some (ExportData.tickets [{ id := 1 }])) "tickets"
        ⟨2025, 1, 10⟩).toOption.map Workbook.cells
      = some (ticketHeaders :: ([{ id := 1 }] : List Ticket).map specTicketRow))
    ∧ ((exportToExcel (some (ExportData.reports
          [{ id := 1, kmIn := some 0 }])) "reports"
        ⟨2025, 1, 10⟩).toOption.map Workbook.cells
      = some (reportHeaders ::
          ([{ id := 1, kmIn := some 0 }] : List Report).map specReportRow)) :=
  C9_cell_rendering [{ id := 1 }] [{ id := 1, kmIn := some 0 }] "tickets"
    ⟨2025, 1, 10⟩ (by decide) (by decide)

/-- C9 (counterexample to the original claim): a report with a present
`kmIn` equal to 0 exports that cell as the empty string, not as "0". -/
theorem C9_counterexample :
    ((exportToExcel (some (ExportData.reports
          [{ id := 1, name := some "Asha", kmIn := some 0 }])) "reports"
        ⟨2025, 1, 10⟩).toOption.map
      (fun w => (w.cells.getD 1 []).getD 2 "MISSING")) = some ""
    ∧ ((exportToExcel (some (ExportData.reports
          [{ id := 1, name := some "Asha", kmIn := some 0 }])) "reports"
        ⟨2025, 1, 10⟩).toOption.map
      (fun w => (w.cells.getD 1 []).getD 2 "MISSING")) ≠ some "0" := by
  constructor
  · decide
  · decide

/-- C10: `createReport` persists `totalKm` (and the odometer fields)
exactly as supplied, with no server-side recomputation or consistency
check against `kmOut - kmIn`; in particular a report created with
kmIn=100, kmOut=175, totalKm=0 is stored with totalKm=0. -/
theorem C10_totalKm_stored_as_supplied :
    (∀ (store : ReportStore) (ins : InsertReport),
      (createReport store ins).2.totalKm = ins.totalKm
      ∧ (createReport store ins).2.kmIn = ins.kmIn
      ∧ (createReport store ins).2.kmOut = ins.kmOut
      ∧ (createReport store ins).1.rows
          = store.rows ++ [(createReport store ins).2])
    ∧ (createReport ⟨[], 1⟩
        { name := some "Asha", kmIn := some 100, kmOut := some 175,
          totalKm := some 0 }).2.totalKm = some 0 :=
  ⟨fun store ins => ⟨rfl, rfl, rfl, rfl⟩, rfl⟩
